import Mathlib

/-
Verification development for the SolveBio Python client core
(solvebio/client.py). The request pipeline, credential resolver and
error classification are shallowly embedded below; Python dictionaries
become string-keyed association lists, Python dynamic option values
become the inductive OptVal, and code that can raise becomes Except.
-/

set_option autoImplicit false
set_option maxRecDepth 8192

namespace SolvebioClient

universe u

/-- A Python dictionary with string keys, embedded as an association list
with at most one binding per key (all constructors below keep keys unique). -/
abbrev Dict (α : Type u) : Type u := List (String × α)

/-- Dictionary lookup, as in Python d.get(k). -/
def dget? {α : Type u} : Dict α → String → Option α
  | [], _ => none
  | (k2, v) :: rest, k => if k2 = k then some v else dget? rest k

/-- Dictionary write, as in Python d[k] = v (replaces an existing binding). -/
def dset {α : Type u} : Dict α → String → α → Dict α
  | [], k, v => [(k, v)]
  | (k2, v2) :: rest, k, v =>
      if k2 = k then (k, v) :: rest else (k2, v2) :: dset rest k v

/-- Key removal, as in Python d.pop(k, None) (on a dict with unique keys). -/
def dremove {α : Type u} : Dict α → String → Dict α
  | [], _ => []
  | (k2, v) :: rest, k =>
      if k2 = k then dremove rest k else (k2, v) :: dremove rest k

/-- Python d.pop(k) with no default: KeyError (modelled as .error) when the
key is absent, otherwise the value together with the dict minus the key. -/
def dpop {α : Type u} (d : Dict α) (k : String) : Except Unit (α × Dict α) :=
  match dget? d k with
  | none => .error ()
  | some v => .ok (v, dremove d k)

/-- Python d.update(e): overlay e onto d, e wins per key. -/
def dupdate {α : Type u} (d e : Dict α) : Dict α :=
  e.foldl (fun acc p => dset acc p.1 p.2) d

/-- Python k in d. -/
def dcontains {α : Type u} (d : Dict α) (k : String) : Bool :=
  (dget? d k).isSome

/-- A dynamic Python value, covering the value shapes that flow through the
request option dictionary: None, bool, int, str, dict of strings, a file
handle, and a SolveTokenAuth instance (carrying its resolved token). -/
inductive OptVal : Type where
  | none_ : OptVal
  | b (x : Bool) : OptVal
  | n (x : Nat) : OptVal
  | s (x : String) : OptVal
  | dict (d : Dict String) : OptVal
  | fileH (name : String) : OptVal
  | auth (token : Option String) : OptVal
  deriving DecidableEq

/-- Python truthiness of an OptVal (file handles and auth objects are
always truthy objects in Python). -/
def pyTruthy : OptVal → Bool
  | .none_ => false
  | .b x => x
  | .n x => x != 0
  | .s x => x != ""
  | .dict d => !d.isEmpty
  | .fileH _ => true
  | .auth _ => true

/-- Python truthiness of an optional string (None and the empty string are
falsy). -/
def pyTruthyStr : Option String → Bool
  | none => false
  | some x => x != ""

/-- Python a or b on optional strings: the first operand when truthy,
otherwise the second. -/
def pyOrStr (a b : Option String) : Option String :=
  if pyTruthyStr a then a else b

/-- Truthiness of an optional dynamic value (a missing value is falsy). -/
def pyTruthyOpt : Option OptVal → Bool
  | none => false
  | some v => pyTruthy v

/-- JSON string quoting used by the json.dumps model below. -/
def jsonQuote (x : String) : String := "\"" ++ x ++ "\""

/-- Models json.dumps on the value shapes the client passes as data:
scalars and string-valued dicts serialize; file handles and auth objects
raise TypeError, modelled as none. -/
def pyJsonDumps : OptVal → Option String
  | .none_ => some "null"
  | .b true => some "true"
  | .b false => some "false"
  | .n x => some (toString x)
  | .s x => some (jsonQuote x)
  | .dict d =>
      some ("\x7b" ++ String.intercalate ", "
        (d.map (fun p => jsonQuote p.1 ++ ": " ++ jsonQuote p.2)) ++ "\x7d")
  | .fileH _ => none
  | .auth _ => none

/-- An HTTP response: status code, headers, body text. -/
structure Response : Type where
  status_code : Nat
  headers : Dict String
  body : String
  deriving DecidableEq

/-- Models response.json(): the JSON-decoded view of the body (the decoded
view is represented by the body text itself). -/
def Response.json (r : Response) : String := r.body

/-- Modelled from the spec: the SolveError type lives in solvebio.errors,
which is not under src/. Per the error payload contract it carries an
optional message and, for API errors, the full response object. -/
structure SolveErrorV : Type where
  message : Option String
  response : Option Response
  deriving DecidableEq

/-- A Python exception as seen by the request error handler: its type name,
its str() message, and whether it is a requests.exceptions.RequestException. -/
structure PyExc : Type where
  typeName : String
  msg : String
  isRequestException : Bool
  deriving DecidableEq

/-- A Python runtime error raised by dict and attribute access in the
pipeline itself (KeyError from pop, TypeError from json.dumps, attribute
errors from treating a non-dict as headers). -/
inductive PyErr : Type where
  | keyError (k : String) : PyErr
  | typeError : PyErr
  | attrError : PyErr
  deriving DecidableEq

/-- The info-level diagnostic line logged by _handle_api_error. -/
def apiErrorLog (code : Nat) : String := "API Error: " ++ toString code

/-- Embeds _handle_api_error (client.py lines 19-24): statuses 400, 401,
403 and 404 raise SolveError(response=response) directly; every other
status logs an info diagnostic and raises the same error. Returns the
emitted info log lines together with the raised error. -/
def handle_api_error (response : Response) : List String × SolveErrorV :=
  if [400, 401, 403, 404].contains response.status_code then
    ([], ⟨none, some response⟩)
  else
    ([apiErrorLog response.status_code], ⟨none, some response⟩)

/-- The exact text of the local-configuration message used for
exceptions that are not RequestException (client.py lines 32-35). -/
def unexpected_error_text : String :=
  "Unexpected error communicating with SolveBio. " ++
  "It looks like there\x27s probably a configuration " ++
  "issue locally. If this problem persists, let us " ++
  "know at contact@solvebio.com."

/-- Embeds _handle_request_error (client.py lines 27-42). The fill
argument models textwrap.fill and the default_message argument models
SolveError.default_message, both defined outside src/. -/
def handle_request_error (fill : String → String) (default_message : String)
    (e : PyExc) : SolveErrorV :=
  if e.isRequestException then
    ⟨some (fill default_message ++ "\n\n(Network error: " ++
      (e.typeName ++ ": " ++ e.msg) ++ ")"), none⟩
  else
    ⟨some (fill unexpected_error_text ++ "\n\n(Network error: " ++
      (if e.msg != "" then
        "A " ++ e.typeName ++ " was raised" ++ " with error message " ++ e.msg
       else
        "A " ++ e.typeName ++ " was raised" ++ " with no error message") ++
      ")"), none⟩

/-- The final value produced by one request call. -/
inductive ReqResult : Type where
  | pyError (e : PyErr) : ReqResult
  | solveErr (e : SolveErrorV) : ReqResult
  | rawResponse (r : Response) : ReqResult
  | jsonBody (s : String) : ReqResult
  deriving DecidableEq

/-- Bool test for a status code in the success range [200, 400). -/
def inSuccessRange (code : Nat) : Bool := 200 ≤ code && code < 400

/-- Embeds the outcome classification of request (client.py lines
218-225): out-of-range statuses go through _handle_api_error; statuses
204, 301 and 302, or a truthy raw value, return the untouched response;
otherwise the JSON-decoded body is returned. Produces the info log lines
and the result. -/
def handle_response (rawV : OptVal) (r : Response) : List String × ReqResult :=
  if !inSuccessRange r.status_code then
    let p := handle_api_error r
    (p.1, .solveErr p.2)
  else if pyTruthy rawV || [204, 301, 302].contains r.status_code then
    ([], .rawResponse r)
  else
    ([], .jsonBody r.json)

/-- The outcome of calling get_credentials() from solvebio.credentials
(a module outside src/): per the spec it yields an (identifier, token)
pair or fails; every failure mode is opaque. -/
inductive StoreOutcome : Type where
  | ok (identifier : String) (token : String) : StoreOutcome
  | raises : StoreOutcome
  deriving DecidableEq

/-- The expression get_credentials()[1]: the second tuple element on
success, an exception otherwise. -/
def get_credentials_second : StoreOutcome → Except Unit String
  | .ok _ t => .ok t
  | .raises => .error ()

/-- Embeds SolveTokenAuth._get_api_key (client.py lines 59-71): return
solvebio.api_key when truthy, else try get_credentials()[1] swallowing
every exception, else None. -/
def get_api_key (global_api_key : Option String) (store : StoreOutcome) :
    Option String :=
  if pyTruthyStr global_api_key then global_api_key
  else
    match get_credentials_second store with
    | .ok t => some t
    | .error _ => none

/-- Embeds SolveTokenAuth.__init__ (client.py lines 48-49):
self.token = token or self._get_api_key(). -/
def solveTokenAuthInit (token : Option String) (global_api_key : Option String)
    (store : StoreOutcome) : Option String :=
  pyOrStr token (get_api_key global_api_key store)

/-- Embeds SolveTokenAuth.__call__ (client.py lines 51-54): when the
resolved token is truthy, set the Authorization header on the outgoing
request headers; otherwise leave them untouched. -/
def solveTokenAuthCall (token : Option String) (reqHeaders : Dict String) :
    Dict String :=
  if pyTruthyStr token then
    dset reqHeaders "Authorization" ("Token " ++ token.getD "")
  else reqHeaders

/-- Embeds the default header dict built in SolveClient.__init__
(client.py lines 80-89); the User-Agent value depends on the library
version and the Python runtime, so it is a parameter. -/
def default_headers (userAgent : String) : Dict String :=
  [("Content-Type", "application/json"),
   ("Accept", "application/json"),
   ("Accept-Encoding", "gzip,deflate"),
   ("User-Agent", userAgent)]

/-- Embeds the default option dict built at the top of request
(client.py lines 168-177); the auth entry holds the token resolved by
SolveTokenAuth() and the headers entry holds dict(self._headers), a
fresh copy of the defaults. -/
def default_opts (userAgent : String) (authToken : Option String) :
    Dict OptVal :=
  [("allow_redirects", .b true),
   ("auth", .auth authToken),
   ("data", .dict []),
   ("files", .none_),
   ("headers", .dict (default_headers userAgent)),
   ("params", .dict []),
   ("timeout", .n 80),
   ("verify", .b true)]

/-- Embeds the files branch of request (client.py lines 189-193): a
truthy files option removes Content-Type from the outgoing headers via
opts.pop, otherwise the data option is replaced by json.dumps(data).
Dynamic failures of the underlying Python operations surface as PyErr. -/
def applyFilesBranch (opts : Dict OptVal) : Except PyErr (Dict OptVal) :=
  match dget? opts "files" with
  | none => .error (.keyError "files")
  | some fv =>
    if pyTruthy fv then
      match dget? opts "headers" with
      | none => .error (.keyError "headers")
      | some (.dict h) =>
          .ok (dset opts "headers" (.dict (dremove h "Content-Type")))
      | some _ => .error .attrError
    else
      match dget? opts "data" with
      | none => .error (.keyError "data")
      | some dv =>
        match pyJsonDumps dv with
        | none => .error .typeError
        | some sv => .ok (dset opts "data" (.s sv))

/-- Models Python str.startswith, character based (as Python string
operations are), via structural list recursion. -/
def pyStartsWith (s pre : String) : Bool := pre.data.isPrefixOf s.data

/-- Models Python string slicing s[n:], character based. -/
def strDrop (s : String) (n : Nat) : String := ⟨s.data.drop n⟩

/-- Splits an http or https URL into its scheme and the text after the
scheme separator; none for other references. -/
def splitScheme (u : String) : Option (String × String) :=
  if pyStartsWith u "https://" then some ("https", strDrop u 8)
  else if pyStartsWith u "http://" then some ("http", strDrop u 7)
  else none

/-- Splits a character list on slash characters: the list analogue of
str.split. -/
def splitOnSlash : List Char → List (List Char)
  | [] => [[]]
  | c :: rest =>
    match splitOnSlash rest with
    | [] => [[]]
    | g :: gs => if c = '/' then [] :: g :: gs else (c :: g) :: gs

/-- Joins character-list segments with slash characters: the analogue of
a slash join. -/
def joinSlash : List (List Char) → List Char
  | [] => []
  | [g] => g
  | g :: g2 :: gs => g ++ '/' :: joinSlash (g2 :: gs)

/-- The network location of the text after the scheme separator: the
segment before the first slash. -/
def netlocOf (rest : String) : String := ⟨(splitOnSlash rest.data).headD []⟩

/-- The path of the text after the scheme separator: a slash followed by
everything after the network location, or empty when there is none. -/
def basePathOf (rest : String) : String :=
  match splitOnSlash rest.data with
  | [] => ""
  | [_] => ""
  | _ :: tailSegs => ⟨'/' :: joinSlash tailSegs⟩

/-- The directory part of a path: everything up to and including the
final slash, a single slash when the path is empty. -/
def dirOf (p : String) : String :=
  ⟨joinSlash ((splitOnSlash p.data).dropLast) ++ ['/']⟩

/-- Modelled from the Python standard library: urlparse.urljoin from the
urlparse module (Python 2), restricted to http and https base URLs and
the reference shapes the client passes it: absolute URLs, network-path
references, absolute-path references and relative-path references
without query or fragment parts. -/
def urljoin (base url : String) : String :=
  match splitScheme url with
  | some _ => url
  | none =>
    match splitScheme base with
    | none => url
    | some (scheme, rest) =>
      if pyStartsWith url "//" then scheme ++ ":" ++ url
      else if pyStartsWith url "/" then
        scheme ++ "://" ++ netlocOf rest ++ url
      else if url = "" then base
      else scheme ++ "://" ++ netlocOf rest ++ dirOf (basePathOf rest) ++ url

/-- Embeds the host resolution of request (client.py lines 196-202):
api_host = self._api_host or solvebio.api_host; a falsy result raises
SolveError(message=...); a url already starting with the host is kept
verbatim, any other url is joined onto the host. -/
def resolve_url (client_api_host global_api_host : Option String)
    (url : String) : Except SolveErrorV String :=
  let api_host := pyOrStr client_api_host global_api_host
  if !pyTruthyStr api_host then
    .error ⟨some "No SolveBio API host is set", none⟩
  else
    let h := api_host.getD ""
    if pyStartsWith url h then .ok url else .ok (urljoin h url)

/-- The process-wide and external state a request call reads: the
textwrap.fill function and SolveError.default_message (both defined
outside src/), the User-Agent string, solvebio.api_key, the credential
store outcome and solvebio.api_host. -/
structure Env : Type where
  fill : String → String
  default_message : String
  userAgent : String
  api_key : Option String
  store : StoreOutcome
  global_api_host : Option String

/-- The arguments handed to requests.request at dispatch time: the
upper-cased method, the resolved URL and the merged option dict. -/
structure DispatchCall : Type where
  method : String
  url : String
  opts : Dict OptVal
  deriving DecidableEq

/-- What one call to SolveClient.request produced: the final result, the
transport invocation if one happened (none means zero transport calls),
and the info-level log lines emitted. -/
structure ReqOutcome : Type where
  result : ReqResult
  dispatched : Option DispatchCall
  infoLogs : List String
  deriving DecidableEq

/-- The behaviour of the underlying requests.request call, supplied as
an input: a completed response or a raised exception. -/
inductive TransportOutcome : Type where
  | ok (r : Response) : TransportOutcome
  | exc (e : PyExc) : TransportOutcome
  deriving DecidableEq

/-- Embeds request after the raw handling (client.py lines 185-225):
merge kwargs over the defaults, upper-case the method, run the files
branch, resolve the URL, dispatch, and classify the outcome. -/
def request_rest (env : Env) (client_api_host : Option String)
    (method url : String) (kwargs : Dict OptVal)
    (transport : TransportOutcome) (rawV : OptVal) (opts1 : Dict OptVal) :
    ReqOutcome :=
  match applyFilesBranch (dupdate opts1 kwargs) with
  | .error e => ⟨.pyError e, none, []⟩
  | .ok opts3 =>
    match resolve_url client_api_host env.global_api_host url with
    | .error se => ⟨.solveErr se, none, []⟩
    | .ok url2 =>
      match transport with
      | .exc e =>
          ⟨.solveErr (handle_request_error env.fill env.default_message e),
           some ⟨method.toUpper, url2, opts3⟩, []⟩
      | .ok r =>
          let p := handle_response rawV r
          ⟨p.2, some ⟨method.toUpper, url2, opts3⟩, p.1⟩

/-- Embeds SolveClient.request (client.py lines 118-225). Lines 179-184:
when kwargs carries the key raw, its value is read and then
opts.pop(\x27raw\x27) is executed on the freshly built default option
dict, which does not contain that key, so dpop yields the KeyError
branch; without the key, raw defaults to False. The rest of the
pipeline is request_rest. -/
def requestModel (env : Env) (client_api_host : Option String)
    (method url : String) (kwargs : Dict OptVal)
    (transport : TransportOutcome) : ReqOutcome :=
  let opts0 := default_opts env.userAgent
    (solveTokenAuthInit none env.api_key env.store)
  match dget? kwargs "raw" with
  | some rv =>
    match dpop opts0 "raw" with
    | .error _ => ⟨.pyError (.keyError "raw"), none, []⟩
    | .ok (_, opts1) =>
        request_rest env client_api_host method url kwargs transport rv opts1
  | none =>
      request_rest env client_api_host method url kwargs transport
        (.b false) opts0

/-- A header dictionary on the Python heap. -/
abbrev HeaderMap : Type := Dict String

/-- The Python heap restricted to header dictionaries: a list of
allocated dicts, addressed by position. -/
abbrev Heap : Type := List HeaderMap

/-- Read the dict at an address (empty dict for a dangling address). -/
def heapGet (h : Heap) (a : Nat) : HeaderMap := h.getD a []

/-- Overwrite the dict at an address in place. -/
def heapSet (h : Heap) (a : Nat) (d : HeaderMap) : Heap := h.set a d

/-- Allocate a new dict, returning the grown heap and the fresh address. -/
def heapAlloc (h : Heap) (d : HeaderMap) : Heap × Nat := (h ++ [d], h.length)

/-- Reference-level model of the header handling of one request call
(client.py lines 168-191): dict(self._headers) allocates a fresh copy of
the default headers; opts.update(kwargs) makes the option entry point at
the caller-supplied dict when one was passed, discarding the fresh copy;
a truthy files option then pops Content-Type from the referenced dict in
place. Returns the heap after the call and the address of the outgoing
headers dict. -/
def headersForCall (heap : Heap) (defaults : HeaderMap)
    (callerHeaders : Option Nat) (filesTruthy : Bool) : Heap × Nat :=
  let alloc := heapAlloc heap defaults
  let addr := callerHeaders.getD alloc.2
  let heap2 :=
    if filesTruthy then
      heapSet alloc.1 addr (dremove (heapGet alloc.1 addr) "Content-Type")
    else alloc.1
  (heap2, addr)

/-- The merged option dict of a request call: the defaults overlaid with
the caller kwargs (client.py line 185). -/
def mergedOpts (env : Env) (kwargs : Dict OptVal) : Dict OptVal :=
  dupdate (default_opts env.userAgent
    (solveTokenAuthInit none env.api_key env.store)) kwargs

/-- Whether the headers entry of an option dict carries the given header
key (false as well when the entry is not a dict). -/
def headersContain (opts : Dict OptVal) (k : String) : Bool :=
  match dget? opts "headers" with
  | some (.dict hm) => (dget? hm k).isSome
  | _ => false

/-- Sample process environment with a configured global API host, used
by concrete witnesses. -/
def sampleEnvHost : Env :=
  ⟨id, "CouldNotConnectMessage", "UA", none, .raises,
   some "https://api.example.com"⟩

/-- Sample process environment with no API host configured anywhere. -/
def sampleEnvNoHost : Env :=
  ⟨id, "CouldNotConnectMessage", "UA", none, .raises, none⟩

/-- Sample 200 response with a JSON body. -/
def sampleR200 : Response := ⟨200, [], "\x7b\x7d"⟩

/-- Sample 500 response. -/
def sampleR500 : Response := ⟨500, [], "error body"⟩

/-- A caller-owned header dict living on the heap in the C2 scenario. -/
def sharedHeaders : HeaderMap :=
  [("Content-Type", "application/json"), ("X-Custom", "1")]

/-! Basic dictionary lemmas. -/

theorem dget_dset_self {α : Type u} (d : Dict α) (k : String) (v : α) :
    dget? (dset d k v) k = some v := by
  induction d with
  | nil => simp [dset, dget?]
  | cons p rest ih =>
    obtain ⟨k2, v2⟩ := p
    by_cases h : k2 = k
    · simp [dset, h, dget?]
    · simp [dset, h, dget?, ih]

theorem dget_dset_ne {α : Type u} (d : Dict α) (k k2 : String) (v : α)
    (h : k ≠ k2) : dget? (dset d k v) k2 = dget? d k2 := by
  induction d with
  | nil => simp [dset, dget?, h]
  | cons p rest ih =>
    obtain ⟨k3, v3⟩ := p
    by_cases h3 : k3 = k
    · subst h3; simp [dset, dget?, h]
    · simp [dset, h3, dget?, ih]

theorem dget_dremove_self {α : Type u} (d : Dict α) (k : String) :
    dget? (dremove d k) k = none := by
  induction d with
  | nil => simp [dremove, dget?]
  | cons p rest ih =>
    obtain ⟨k2, v2⟩ := p
    by_cases h : k2 = k
    · simp [dremove, h, ih]
    · simp [dremove, h, dget?, ih]

theorem dupdate_nil {α : Type u} (d : Dict α) : dupdate d [] = d := rfl

/-! Pipeline unfolding lemmas. -/

theorem dpop_default_opts_raw (ua : String) (tok : Option String) :
    dpop (default_opts ua tok) "raw" = .error () := rfl

theorem requestModel_raw_eq (env : Env) (c : Option String)
    (method url : String) (kwargs : Dict OptVal) (t : TransportOutcome)
    (rv : OptVal) (h : dget? kwargs "raw" = some rv) :
    requestModel env c method url kwargs t =
      ⟨.pyError (.keyError "raw"), none, []⟩ := by
  simp only [requestModel, h, dpop_default_opts_raw]

theorem requestModel_noraw_eq (env : Env) (c : Option String)
    (method url : String) (kwargs : Dict OptVal) (t : TransportOutcome)
    (h : dget? kwargs "raw" = none) :
    requestModel env c method url kwargs t =
      request_rest env c method url kwargs t (.b false)
        (default_opts env.userAgent
          (solveTokenAuthInit none env.api_key env.store)) := by
  simp only [requestModel, h]

theorem request_rest_dispatch_inv (env : Env) (c : Option String)
    (method url : String) (kwargs : Dict OptVal) (t : TransportOutcome)
    (rawV : OptVal) (opts1 : Dict OptVal) (call : DispatchCall)
    (hd : (request_rest env c method url kwargs t rawV opts1).dispatched =
      some call) :
    applyFilesBranch (dupdate opts1 kwargs) = .ok call.opts ∧
    resolve_url c env.global_api_host url = .ok call.url ∧
    call.method = method.toUpper := by
  cases hf : applyFilesBranch (dupdate opts1 kwargs) with
  | error e => simp [request_rest, hf] at hd
  | ok opts3 =>
    cases hu : resolve_url c env.global_api_host url with
    | error se => simp [request_rest, hf, hu] at hd
    | ok u2 =>
      cases t with
      | exc e =>
        simp only [request_rest, hf, hu] at hd
        injection hd with hcall
        subst hcall
        exact ⟨rfl, rfl, rfl⟩
      | ok r =>
        simp only [request_rest, hf, hu] at hd
        injection hd with hcall
        subst hcall
        exact ⟨rfl, rfl, rfl⟩

theorem request_rest_ok_result (env : Env) (c : Option String)
    (method url : String) (kwargs : Dict OptVal) (r : Response)
    (rawV : OptVal) (opts1 : Dict OptVal)
    (hd : (request_rest env c method url kwargs (.ok r) rawV
      opts1).dispatched.isSome = true) :
    (request_rest env c method url kwargs (.ok r) rawV opts1).result =
      (handle_response rawV r).2 ∧
    (request_rest env c method url kwargs (.ok r) rawV opts1).infoLogs =
      (handle_response rawV r).1 := by
  cases hf : applyFilesBranch (dupdate opts1 kwargs) with
  | error e => simp [request_rest, hf] at hd
  | ok opts3 =>
    cases hu : resolve_url c env.global_api_host url with
    | error se => simp [request_rest, hf, hu] at hd
    | ok u2 => exact ⟨by simp [request_rest, hf, hu], by simp [request_rest, hf, hu]⟩

theorem request_rest_exc_result (env : Env) (c : Option String)
    (method url : String) (kwargs : Dict OptVal) (e : PyExc)
    (rawV : OptVal) (opts1 : Dict OptVal)
    (hd : (request_rest env c method url kwargs (.exc e) rawV
      opts1).dispatched.isSome = true) :
    (request_rest env c method url kwargs (.exc e) rawV opts1).result =
      .solveErr (handle_request_error env.fill env.default_message e) := by
  cases hf : applyFilesBranch (dupdate opts1 kwargs) with
  | error e2 => simp [request_rest, hf] at hd
  | ok opts3 =>
    cases hu : resolve_url c env.global_api_host url with
    | error se => simp [request_rest, hf, hu] at hd
    | ok u2 => simp [request_rest, hf, hu]

theorem requestModel_ok_result (env : Env) (c : Option String)
    (method url : String) (kwargs : Dict OptVal) (r : Response)
    (hd : (requestModel env c method url kwargs
      (.ok r)).dispatched.isSome = true) :
    (requestModel env c method url kwargs (.ok r)).result =
      (handle_response (.b false) r).2 ∧
    (requestModel env c method url kwargs (.ok r)).infoLogs =
      (handle_response (.b false) r).1 := by
  cases hr : dget? kwargs "raw" with
  | some rv => rw [requestModel_raw_eq env c method url kwargs _ rv hr] at hd; simp at hd
  | none =>
    rw [requestModel_noraw_eq env c method url kwargs _ hr] at hd ⊢
    exact request_rest_ok_result env c method url kwargs r _ _ hd

theorem requestModel_exc_result (env : Env) (c : Option String)
    (method url : String) (kwargs : Dict OptVal) (e : PyExc)
    (hd : (requestModel env c method url kwargs
      (.exc e)).dispatched.isSome = true) :
    (requestModel env c method url kwargs (.exc e)).result =
      .solveErr (handle_request_error env.fill env.default_message e) := by
  cases hr : dget? kwargs "raw" with
  | some rv => rw [requestModel_raw_eq env c method url kwargs _ rv hr] at hd; simp at hd
  | none =>
    rw [requestModel_noraw_eq env c method url kwargs _ hr] at hd ⊢
    exact request_rest_exc_result env c method url kwargs e _ _ hd

theorem requestModel_dispatch_inv (env : Env) (c : Option String)
    (method url : String) (kwargs : Dict OptVal) (t : TransportOutcome)
    (call : DispatchCall)
    (hd : (requestModel env c method url kwargs t).dispatched = some call) :
    dget? kwargs "raw" = none ∧
    applyFilesBranch (dupdate (default_opts env.userAgent
      (solveTokenAuthInit none env.api_key env.store)) kwargs) =
      .ok call.opts ∧
    resolve_url c env.global_api_host url = .ok call.url ∧
    call.method = method.toUpper := by
  cases hr : dget? kwargs "raw" with
  | some rv => rw [requestModel_raw_eq env c method url kwargs t rv hr] at hd; simp at hd
  | none =>
    rw [requestModel_noraw_eq env c method url kwargs t hr] at hd
    exact ⟨rfl, request_rest_dispatch_inv env c method url kwargs t _ _ call hd⟩

theorem handle_api_error_eq (r : Response) :
    handle_api_error r =
      ((if [400, 401, 403, 404].contains r.status_code then []
        else [apiErrorLog r.status_code]), ⟨none, some r⟩) := by
  unfold handle_api_error
  split <;> simp_all

theorem handle_response_inrange (rawV : OptVal) (r : Response)
    (hin : inSuccessRange r.status_code = true) :
    handle_response rawV r =
      (if pyTruthy rawV || [204, 301, 302].contains r.status_code then
        ([], .rawResponse r)
      else ([], ReqResult.jsonBody r.json)) := by
  unfold handle_response
  rw [hin]
  rfl

theorem handle_response_err (rawV : OptVal) (r : Response)
    (hs : inSuccessRange r.status_code = false) :
    handle_response rawV r =
      ((if [400, 401, 403, 404].contains r.status_code then []
        else [apiErrorLog r.status_code]), .solveErr ⟨none, some r⟩) := by
  simp [handle_response, hs, handle_api_error_eq]

/-! List and string helper lemmas. -/

theorem list_getD_append {α : Type u} (l : List α) (a d : α) :
    (l ++ [a]).getD l.length d = a := by
  induction l with
  | nil => rfl
  | cons x rest ih => simp [ih]

theorem list_getD_set_self {α : Type u} (l : List α) (i : Nat) (a d : α)
    (h : i < l.length) : (l.set i a).getD i d = a := by
  induction l generalizing i with
  | nil => simp at h
  | cons x rest ih =>
    cases i with
    | zero => rfl
    | succ n =>
      have hn : n < rest.length := by simpa using h
      simpa using ih n hn

theorem str_eq_empty_of_length (s : String) (h : s.length = 0) : s = "" := by
  cases s with
  | mk data =>
    cases data with
    | nil => rfl
    | cons c cs => simp [String.length] at h

/-- Every branch of the request error handler yields an error with no
response whose message splices the exception type name and message into
fixed surrounding text. -/
theorem handle_request_error_composite (fill : String → String)
    (dm : String) (e : PyExc) :
    ∃ pre mid post, handle_request_error fill dm e =
      ⟨some (pre ++ e.typeName ++ mid ++ e.msg ++ post), none⟩ := by
  by_cases hreq : e.isRequestException
  · refine ⟨fill dm ++ "\n\n(Network error: ", ": ", ")", ?_⟩
    simp [handle_request_error, hreq, String.append_assoc]
  · by_cases hmsg : e.msg = ""
    · refine ⟨fill unexpected_error_text ++ "\n\n(Network error: A ",
        " was raised with no error message", ")", ?_⟩
      have hlit : ∀ X : String,
          "\n\n(Network error: " ++ ("A " ++ X) =
            "\n\n(Network error: A " ++ X := by
        intro X
        rw [← String.append_assoc]
        rfl
      simp [handle_request_error, hreq, hmsg, String.append_assoc,
        String.append_empty]
      rw [hlit]
    · refine ⟨fill unexpected_error_text ++ "\n\n(Network error: A ",
        " was raised with error message ", ")", ?_⟩
      have hlit : ∀ X : String,
          "\n\n(Network error: " ++ ("A " ++ X) =
            "\n\n(Network error: A " ++ X := by
        intro X
        rw [← String.append_assoc]
        rfl
      simp [handle_request_error, hreq, hmsg, String.append_assoc]
      rw [hlit]

/-! Heap model lemmas for the header aliasing analysis. -/

theorem headersForCall_none_addr (heap : Heap) (defaults : HeaderMap)
    (f : Bool) : (headersForCall heap defaults none f).2 = heap.length := rfl

theorem headersForCall_none_len (heap : Heap) (defaults : HeaderMap)
    (f : Bool) :
    (headersForCall heap defaults none f).1.length = heap.length + 1 := by
  cases f <;> simp [headersForCall, heapAlloc, heapSet]

theorem heapSet_len (heap : Heap) (a : Nat) (d : HeaderMap) :
    (heapSet heap a d).length = heap.length := by
  simp [heapSet]

theorem headersForCall_none_get (heap : Heap) (defaults : HeaderMap)
    (f : Bool) :
    heapGet (headersForCall heap defaults none f).1
        (headersForCall heap defaults none f).2 =
      if f then dremove defaults "Content-Type" else defaults := by
  cases f with
  | false =>
    simp only [headersForCall, heapAlloc, heapGet, Option.getD, if_neg,
      Bool.false_eq_true, not_false_eq_true, if_false]
    simp [list_getD_append heap defaults []]
  | true =>
    have hlen : heap.length < (heap ++ [defaults]).length := by simp
    simp only [headersForCall, heapAlloc, heapGet, heapSet, Option.getD,
      if_pos]
    rw [list_getD_set_self _ _ _ _ hlen, list_getD_append]

/-! Claim theorems. -/

/-- C1: every call to request that supplies the raw option raises
KeyError before dispatch and never invokes the transport: line 181 pops
the key raw from the freshly built default option dict, which does not
contain it, instead of removing it from kwargs. This contradicts the
claim that supplying raw cannot make the call fail before dispatch. -/
theorem raw_option_always_raises_keyerror (env : Env) (c : Option String)
    (method url : String) (kwargs : Dict OptVal) (t : TransportOutcome)
    (rv : OptVal) (h : dget? kwargs "raw" = some rv) :
    requestModel env c method url kwargs t =
      ⟨.pyError (.keyError "raw"), none, []⟩ :=
  requestModel_raw_eq env c method url kwargs t rv h

/-- C1 witness: a concrete GET with raw=True raises KeyError with zero
transport invocations. -/
theorem raw_option_keyerror_witness :
    dget? [("raw", OptVal.b true)] "raw" = some (OptVal.b true) ∧
    requestModel sampleEnvHost none "GET" "/v1/x" [("raw", OptVal.b true)]
        (.ok sampleR200) = ⟨.pyError (.keyError "raw"), none, []⟩ :=
  ⟨rfl, raw_option_always_raises_keyerror sampleEnvHost none "GET" "/v1/x"
    [("raw", OptVal.b true)] (.ok sampleR200) (OptVal.b true) rfl⟩

/-- C5: the credential resolver is a total function (never raises) that
returns the explicit token when truthy, else the process-wide api_key
when truthy, else the second element of the credential-store tuple, and
swallows a store failure into no token. -/
theorem credential_resolution_precedence (tok key : Option String)
    (store : StoreOutcome) :
    solveTokenAuthInit tok key store =
      if pyTruthyStr tok then tok
      else if pyTruthyStr key then key
      else
        match store with
        | .ok _ t => some t
        | .raises => none := by
  unfold solveTokenAuthInit pyOrStr get_api_key get_credentials_second
  cases store <;>
    by_cases h1 : pyTruthyStr tok <;>
      by_cases h2 : pyTruthyStr key <;> simp [h1, h2]

/-- C10: an explicitly supplied empty-string token resolves exactly as
an absent token (falling through to api_key and then the store), and the
auth hook can never add an Authorization header whose value is the
six-character text Token followed by nothing. -/
theorem falsy_token_treated_as_absent (key : Option String)
    (store : StoreOutcome) (hdrs : Dict String) :
    solveTokenAuthInit (some "") key store = get_api_key key store ∧
    solveTokenAuthInit none key store = get_api_key key store ∧
    (∀ t : Option String,
      dget? (solveTokenAuthCall t hdrs) "Authorization" = some "Token " →
      dget? hdrs "Authorization" = some "Token ") := by
  refine ⟨by simp [solveTokenAuthInit, pyOrStr, pyTruthyStr],
    by simp [solveTokenAuthInit, pyOrStr, pyTruthyStr], ?_⟩
  intro t h
  by_cases ht : pyTruthyStr t = true
  · exfalso
    rw [solveTokenAuthCall, if_pos ht, dget_dset_self] at h
    injection h with h2
    have hlen := congrArg String.length h2
    rw [String.length_append] at hlen
    have hzero : (t.getD "").length = 0 := by omega
    have hempty : t.getD "" = "" := str_eq_empty_of_length _ hzero
    cases t with
    | none => simp [pyTruthyStr] at ht
    | some sv =>
      simp only [Option.getD] at hempty
      subst hempty
      simp [pyTruthyStr] at ht
  · rw [solveTokenAuthCall, if_neg ht] at h
    exact h

/-- C10 witness: with an empty explicit token the resolver equals the
no-token resolver, and the auth hook on empty headers cannot have
produced a bare Token header. -/
theorem falsy_token_witness :
    solveTokenAuthInit (some "") (some "K") .raises =
      get_api_key (some "K") .raises ∧
    (dget? (solveTokenAuthCall (some "tok") []) "Authorization" =
        some "Token " →
      dget? ([] : Dict String) "Authorization" = some "Token ") :=
  ⟨(falsy_token_treated_as_absent (some "K") .raises []).1,
   (falsy_token_treated_as_absent (some "K") .raises []).2.2 (some "tok")⟩

/-- C4: whenever a dispatched call completes with a status outside
[200, 400), request raises the API error carrying the full response —
one single error kind, identical for 400, 401, 403, 404 and every other
out-of-range code — and an info diagnostic is emitted exactly when the
code is outside that four-element set. -/
theorem api_error_classification (env : Env) (c : Option String)
    (method url : String) (kwargs : Dict OptVal) (r : Response)
    (hs : inSuccessRange r.status_code = false)
    (hd : (requestModel env c method url kwargs
      (.ok r)).dispatched.isSome = true) :
    (requestModel env c method url kwargs (.ok r)).result =
      .solveErr ⟨none, some r⟩ ∧
    (requestModel env c method url kwargs (.ok r)).infoLogs =
      (if [400, 401, 403, 404].contains r.status_code then []
       else [apiErrorLog r.status_code]) := by
  obtain ⟨h1, h2⟩ := requestModel_ok_result env c method url kwargs r hd
  constructor
  · rw [h1, handle_response_err _ r hs]
  · rw [h2, handle_response_err _ r hs]

/-- C4 witness: a dispatched call answered with status 500 yields the
API error carrying the response and logs the info diagnostic. -/
theorem api_error_witness :
    (requestModel sampleEnvHost none "GET" "/v1/x" []
        (.ok sampleR500)).result = .solveErr ⟨none, some sampleR500⟩ ∧
    (requestModel sampleEnvHost none "GET" "/v1/x" []
        (.ok sampleR500)).infoLogs = [apiErrorLog 500] := by
  have h := api_error_classification sampleEnvHost none "GET" "/v1/x" []
    sampleR500 (by decide) (by decide)
  refine ⟨h.1, ?_⟩
  rw [h.2]
  decide

/-- C6: when the transport call raises, a dispatched request re-raises a
transport error that carries no response payload and whose message
splices the original exception type name and message into readable
surrounding text. -/
theorem transport_error_composite (env : Env) (c : Option String)
    (method url : String) (kwargs : Dict OptVal) (e : PyExc)
    (hd : (requestModel env c method url kwargs
      (.exc e)).dispatched.isSome = true) :
    ∃ pre mid post, (requestModel env c method url kwargs (.exc e)).result =
      .solveErr ⟨some (pre ++ e.typeName ++ mid ++ e.msg ++ post), none⟩ := by
  rw [requestModel_exc_result env c method url kwargs e hd]
  obtain ⟨pre, mid, post, h⟩ :=
    handle_request_error_composite env.fill env.default_message e
  exact ⟨pre, mid, post, by rw [h]⟩

/-- C6 witness: a concrete connection failure surfaces as a transport
error embedding the exception type name and message, with no response. -/
theorem transport_error_witness :
    ∃ pre mid post,
      (requestModel sampleEnvHost none "GET" "/v1/x" []
          (.exc ⟨"ConnectionError", "refused", true⟩)).result =
        .solveErr ⟨some (pre ++ "ConnectionError" ++ mid ++ "refused" ++
          post), none⟩ :=
  transport_error_composite sampleEnvHost none "GET" "/v1/x" []
    ⟨"ConnectionError", "refused", true⟩ (by decide)

/-- C7: for a completed call with an in-range status, statuses 204, 301
and 302 return the untouched response whatever the raw value is, and any
other in-range status with raw false returns the JSON-decoded body. -/
theorem success_response_shape (rawV : OptVal) (r : Response)
    (hin : inSuccessRange r.status_code = true) :
    ([204, 301, 302].contains r.status_code = true →
      handle_response rawV r = ([], .rawResponse r)) ∧
    ([204, 301, 302].contains r.status_code = false → pyTruthy rawV = false →
      handle_response rawV r = ([], .jsonBody r.json)) := by
  constructor
  · intro h3
    rw [handle_response_inrange rawV r hin, h3, Bool.or_true, if_pos rfl]
  · intro h3 hraw
    rw [handle_response_inrange rawV r hin, h3, hraw, Bool.or_false]
    simp

/-- C7 witness: status 204 yields the raw response even with raw true,
and status 200 with raw false yields the decoded JSON body. -/
theorem success_response_witness :
    handle_response (OptVal.b true) ⟨204, [], ""⟩ =
      ([], .rawResponse ⟨204, [], ""⟩) ∧
    handle_response (OptVal.b false) sampleR200 =
      ([], .jsonBody "\x7b\x7d") :=
  ⟨(success_response_shape (OptVal.b true) ⟨204, [], ""⟩ (by decide)).1
      (by decide),
   (success_response_shape (OptVal.b false) sampleR200 (by decide)).2
      (by decide) (by decide)⟩

/-- C9: the target host is the per-call override when truthy, else the
process-wide host; a url already starting with the resolved host is used
verbatim; any other url is joined onto the host; and the spec example
joins to https://api.example.com/v1/x. -/
theorem url_resolution (c g : Option String) (url h : String)
    (hh : pyOrStr c g = some h) (hne : h ≠ "") :
    (pyTruthyStr c = true → pyOrStr c g = c) ∧
    (pyTruthyStr c = false → pyOrStr c g = g) ∧
    (pyStartsWith url h = true → resolve_url c g url = .ok url) ∧
    (pyStartsWith url h = false →
      resolve_url c g url = .ok (urljoin h url)) ∧
    urljoin "https://api.example.com" "/v1/x" =
      "https://api.example.com/v1/x" := by
  have htr : pyTruthyStr (some h) = true := by
    simp [pyTruthyStr, hne]
  refine ⟨fun hc => by simp [pyOrStr, hc], fun hc => by simp [pyOrStr, hc],
    ?_, ?_, by decide⟩
  · intro hsw
    simp only [resolve_url]
    rw [hh]
    simp [htr, hsw]
  · intro hsw
    simp only [resolve_url]
    rw [hh]
    simp [htr, hsw]

/-- C9 witness: with only the process-wide host configured, the relative
path /v1/x resolves to https://api.example.com/v1/x. -/
theorem url_resolution_witness :
    resolve_url (some "https://api.example.com") none "/v1/x" =
      .ok (urljoin "https://api.example.com" "/v1/x") ∧
    urljoin "https://api.example.com" "/v1/x" =
      "https://api.example.com/v1/x" := by
  have h := url_resolution (some "https://api.example.com") none "/v1/x"
    "https://api.example.com" rfl (by decide)
  exact ⟨h.2.2.2.1 (by decide), h.2.2.2.2⟩

/-- C3 counterexample: with no host configured anywhere, a call that
supplies the documented raw option attempts no transport call but fails
with KeyError, not with the configuration error, so the claim as stated
over every call is false. -/
theorem no_host_raw_counterexample :
    (requestModel sampleEnvNoHost none "GET" "/v1/x"
        [("raw", OptVal.b true)] (.ok sampleR200)).dispatched = none ∧
    ¬((requestModel sampleEnvNoHost none "GET" "/v1/x"
        [("raw", OptVal.b true)] (.ok sampleR200)).result =
      .solveErr ⟨some "No SolveBio API host is set", none⟩) := by
  decide

/-- C3 amended: with no truthy host resolvable, no transport call is
ever attempted; and every call that does not supply raw and whose merged
options pass the files and body preparation step fails with the
configuration error No SolveBio API host is set. -/
theorem no_host_config_error (env : Env) (c : Option String)
    (method url : String) (kwargs : Dict OptVal) (t : TransportOutcome)
    (hhost : pyTruthyStr (pyOrStr c env.global_api_host) = false) :
    (requestModel env c method url kwargs t).dispatched = none ∧
    (dget? kwargs "raw" = none →
      ∀ o3, applyFilesBranch (mergedOpts env kwargs) = .ok o3 →
      (requestModel env c method url kwargs t).result =
        .solveErr ⟨some "No SolveBio API host is set", none⟩) := by
  have hres : resolve_url c env.global_api_host url =
      .error ⟨some "No SolveBio API host is set", none⟩ := by
    simp only [resolve_url]
    rw [hhost]
    rfl
  constructor
  · cases hr : dget? kwargs "raw" with
    | some rv =>
      rw [requestModel_raw_eq env c method url kwargs t rv hr]
    | none =>
      rw [requestModel_noraw_eq env c method url kwargs t hr]
      cases hf : applyFilesBranch (dupdate (default_opts env.userAgent
          (solveTokenAuthInit none env.api_key env.store)) kwargs) with
      | error e => simp [request_rest, hf]
      | ok o3 => simp [request_rest, hf, hres]
  · intro hr o3 hfb
    rw [requestModel_noraw_eq env c method url kwargs t hr]
    unfold mergedOpts at hfb
    simp [request_rest, hfb, hres]

/-- C3 amended witness: a concrete raw-free call with no host configured
yields the configuration error and zero transport invocations. -/
theorem no_host_config_error_witness :
    (requestModel sampleEnvNoHost none "GET" "/v1/x" []
        (.ok sampleR200)).dispatched = none ∧
    (requestModel sampleEnvNoHost none "GET" "/v1/x" []
        (.ok sampleR200)).result =
      .solveErr ⟨some "No SolveBio API host is set", none⟩ := by
  have h := no_host_config_error sampleEnvNoHost none "GET" "/v1/x" []
    (.ok sampleR200) (by decide)
  exact ⟨h.1, h.2 rfl _ rfl⟩

/-- The files branch removes Content-Type from the outgoing headers and
leaves data untouched when files is truthy, and JSON-encodes data when
files is falsy. -/
theorem files_branch_ct (opts o2 : Dict OptVal)
    (h : applyFilesBranch opts = .ok o2) (fv : OptVal)
    (hf : dget? opts "files" = some fv) :
    (pyTruthy fv = true →
      headersContain o2 "Content-Type" = false ∧
      dget? o2 "data" = dget? opts "data") ∧
    (pyTruthy fv = false →
      ∃ dv sv, dget? opts "data" = some dv ∧ pyJsonDumps dv = some sv ∧
        dget? o2 "data" = some (.s sv)) := by
  unfold applyFilesBranch at h
  simp only [hf] at h
  by_cases ht : pyTruthy fv
  · rw [if_pos ht] at h
    refine ⟨fun _ => ?_, fun hfalse => absurd ht (by simp [hfalse])⟩
    cases hh : dget? opts "headers" with
    | none =>
      simp [hh] at h
    | some hv =>
      simp only [hh] at h
      cases hv with
      | dict hm =>
        injection h with h2
        subst h2
        constructor
        · unfold headersContain
          rw [dget_dset_self]
          simp [dget_dremove_self]
        · exact dget_dset_ne opts "headers" "data" _ (by decide)
      | none_ => simp at h
      | b x => simp at h
      | n x => simp at h
      | s x => simp at h
      | fileH x => simp at h
      | auth x => simp at h
  · rw [if_neg ht] at h
    refine ⟨fun htrue => absurd htrue ht, fun _ => ?_⟩
    cases hdv : dget? opts "data" with
    | none =>
      simp [hdv] at h
    | some dv =>
      simp only [hdv] at h
      cases hjs : pyJsonDumps dv with
      | none =>
        simp [hjs] at h
      | some sv =>
        simp only [hjs] at h
        injection h with h2
        subst h2
        exact ⟨dv, sv, rfl, hjs, dget_dset_self opts "data" _⟩

/-- C8: for every call that reaches dispatch, a truthy files entry in
the merged options makes the outgoing header set lack Content-Type and
leaves data unserialized, while a falsy files entry makes the outgoing
data the json.dumps encoding of the merged data entry. -/
theorem files_content_type_switch (env : Env) (c : Option String)
    (method url : String) (kwargs : Dict OptVal) (t : TransportOutcome)
    (call : DispatchCall)
    (hd : (requestModel env c method url kwargs t).dispatched = some call) :
    (pyTruthyOpt (dget? (mergedOpts env kwargs) "files") = true →
      headersContain call.opts "Content-Type" = false ∧
      dget? call.opts "data" = dget? (mergedOpts env kwargs) "data") ∧
    (pyTruthyOpt (dget? (mergedOpts env kwargs) "files") = false →
      ∃ dv sv, dget? (mergedOpts env kwargs) "data" = some dv ∧
        pyJsonDumps dv = some sv ∧
        dget? call.opts "data" = some (.s sv)) := by
  obtain ⟨hraw, hfb, hu, hm⟩ :=
    requestModel_dispatch_inv env c method url kwargs t call hd
  have hfb2 : applyFilesBranch (mergedOpts env kwargs) = .ok call.opts := hfb
  cases hf : dget? (mergedOpts env kwargs) "files" with
  | none =>
    unfold applyFilesBranch at hfb2
    rw [hf] at hfb2
    simp at hfb2
  | some fv =>
    have hboth := files_branch_ct (mergedOpts env kwargs) call.opts hfb2 fv hf
    exact ⟨fun htr => hboth.1 htr, fun htr => hboth.2 htr⟩

/-- C8 witness: a concrete upload call reaches dispatch with a truthy
files entry and its outgoing header set lacks Content-Type. -/
theorem files_switch_witness :
    pyTruthyOpt (dget? (mergedOpts sampleEnvHost
      [("files", OptVal.fileH "f")]) "files") = true ∧
    (requestModel sampleEnvHost none "GET" "/v1/x"
        [("files", OptVal.fileH "f")] (.ok sampleR200)).dispatched.map
      (fun cl => headersContain cl.opts "Content-Type") = some false := by
  refine ⟨by decide, ?_⟩
  have h := (files_content_type_switch sampleEnvHost none "GET" "/v1/x"
    [("files", OptVal.fileH "f")] (.ok sampleR200) _ rfl).1 (by decide)
  exact congrArg some h.1

/-- C2 counterexample: two sequential calls that both pass the same
caller-owned headers dict share it by reference: the outgoing headers
address of call 1 equals that of call 2, no copy seeded from the
defaults is made for it, and the in-place Content-Type removal done by
call 1 (a file upload) is visible in the headers call 2 goes out with. -/
theorem headers_shared_counterexample :
    ((headersForCall [sharedHeaders] (default_headers "UA") (some 0)
        true).2 =
      (headersForCall
        (headersForCall [sharedHeaders] (default_headers "UA") (some 0)
          true).1
        (default_headers "UA") (some 0) false).2) ∧
    dget? (heapGet
        (headersForCall
          (headersForCall [sharedHeaders] (default_headers "UA") (some 0)
            true).1
          (default_headers "UA") (some 0) false).1
        (headersForCall
          (headersForCall [sharedHeaders] (default_headers "UA") (some 0)
            true).1
          (default_headers "UA") (some 0) false).2) "Content-Type" =
      none ∧
    dget? sharedHeaders "Content-Type" = some "application/json" := by
  decide

/-- C2 amended: when neither call supplies a headers mapping, each call
allocates its own fresh copy of the default headers at a new address, so
however the first call headers dict is mutated in between, the second
call goes out with its own defaults copy (minus Content-Type only when
that call itself uploads files). -/
theorem headers_fresh_without_override (heap : Heap)
    (defaults m : HeaderMap) (f1 f2 : Bool) :
    (headersForCall heap defaults none f1).2 ≠
      (headersForCall
        (heapSet (headersForCall heap defaults none f1).1
          (headersForCall heap defaults none f1).2 m)
        defaults none f2).2 ∧
    heapGet
        (headersForCall (heapSet (headersForCall heap defaults none f1).1
          (headersForCall heap defaults none f1).2 m) defaults none f2).1
        (headersForCall (heapSet (headersForCall heap defaults none f1).1
          (headersForCall heap defaults none f1).2 m) defaults none f2).2 =
      (if f2 then dremove defaults "Content-Type" else defaults) := by
  constructor
  · rw [headersForCall_none_addr, headersForCall_none_addr, heapSet_len,
      headersForCall_none_len]
    omega
  · rw [headersForCall_none_get]

end SolvebioClient
